import Mathlib

/-!
# Verification of the WG-Gesucht scraper core (`wg_scraper.py`)

This file gives a shallow embedding of the data model and the operations of the
scraper core: the timestamp parser `parse_date`, the offer-search parameter
construction of `WgGesuchtClient.offers_all`, the session policy
`ensure_valid_session`, and the per-account reconciliation pipeline
`run_scraper_for_account`.  Network calls, the system clock and the backing
account store are modelled as explicit oracle inputs (`SessEnv`, `RunEnv`);
everything else is translated directly from the Python source.
-/

/-- A naive datetime, as produced by Python's
`datetime.strptime(s, "%d.%m.%Y, %H:%M:%S")`.  Comparison of Python
`datetime` values is chronological, i.e. lexicographic on
(year, month, day, hour, minute, second). -/
structure DT where
  year : Nat
  month : Nat
  day : Nat
  hour : Nat
  minute : Nat
  second : Nat
deriving DecidableEq, Repr

/-- Strict chronological comparison of datetimes (Python `datetime.__lt__`):
lexicographic on the six fields. -/
def DT.ltb (a b : DT) : Bool :=
  if a.year ≠ b.year then decide (a.year < b.year)
  else if a.month ≠ b.month then decide (a.month < b.month)
  else if a.day ≠ b.day then decide (a.day < b.day)
  else if a.hour ≠ b.hour then decide (a.hour < b.hour)
  else if a.minute ≠ b.minute then decide (a.minute < b.minute)
  else decide (a.second < b.second)

lemma DT.ltb_iff (a b : DT) : DT.ltb a b = true ↔
    (a.year < b.year ∨ (a.year = b.year ∧
      (a.month < b.month ∨ (a.month = b.month ∧
        (a.day < b.day ∨ (a.day = b.day ∧
          (a.hour < b.hour ∨ (a.hour = b.hour ∧
            (a.minute < b.minute ∨ (a.minute = b.minute ∧
              a.second < b.second)))))))))) := by
  unfold DT.ltb
  split_ifs <;> simp_all

lemma DT.ltb_irrefl (a : DT) : DT.ltb a a = false := by
  simp [DT.ltb]

lemma DT.ltb_asymm {a b : DT} (h : DT.ltb a b = true) : DT.ltb b a = false := by
  rcases a with ⟨y1, m1, d1, h1, i1, s1⟩
  rcases b with ⟨y2, m2, d2, h2, i2, s2⟩
  rw [DT.ltb_iff] at h
  rw [Bool.eq_false_iff, Ne, DT.ltb_iff]
  simp only at *
  omega

lemma DT.ltb_trans {a b c : DT} (h1 : DT.ltb a b = true) (h2 : DT.ltb b c = true) :
    DT.ltb a c = true := by
  rcases a with ⟨y1, m1, d1, h1', i1, s1⟩
  rcases b with ⟨y2, m2, d2, h2', i2, s2⟩
  rcases c with ⟨y3, m3, d3, h3', i3, s3⟩
  rw [DT.ltb_iff] at *
  simp only at *
  omega

lemma DT.ltb_total {a b : DT} (h : DT.ltb a b = false) : a = b ∨ DT.ltb b a = true := by
  rcases a with ⟨y1, m1, d1, h1', i1, s1⟩
  rcases b with ⟨y2, m2, d2, h2', i2, s2⟩
  rw [Bool.eq_false_iff, Ne, DT.ltb_iff] at h
  rw [DT.ltb_iff]
  simp only [DT.mk.injEq] at *
  omega

/-- `¬ a < b` and `¬ b < a` are transitive ("at least as recent as"). -/
lemma DT.ge_trans {a b c : DT} (h1 : DT.ltb a b = false) (h2 : DT.ltb b c = false) :
    DT.ltb a c = false := by
  rcases DT.ltb_total h1 with rfl | hba
  · exact h2
  · rcases DT.ltb_total h2 with rfl | hcb
    · exact h1
    · rw [Bool.eq_false_iff]
      intro hac
      have := DT.ltb_trans (DT.ltb_trans hcb hba) hac
      rw [DT.ltb_irrefl] at this
      exact Bool.false_ne_true this

/-! ## The timestamp parser `parse_date` (wg_scraper.py lines 297-305)

`parse_date` is `datetime.strptime(date_str, "%d.%m.%Y, %H:%M:%S")` with any
exception mapped to `None`.  CPython's `_strptime` compiles the format to a
regular expression and then constructs a `datetime`, which validates the
fields.  Each directive is an ordered alternation; a two-digit branch is
always followed by a literal separator (or end of input), so committed
(backtracking-free) alternation is equivalent to the regex semantics here. -/

/-- Value of a decimal digit character. -/
def digitVal (c : Char) : Nat := c.toNat - 48

/-- Match two digit characters accepted by `p1`/`p2`, returning the two-digit value. -/
def matchTwo (p1 p2 : Char → Bool) : List Char → Option (Nat × List Char)
  | a :: b :: rest =>
    if p1 a && p2 b then some (digitVal a * 10 + digitVal b, rest) else none
  | _ => none

/-- Match one digit character accepted by `p`. -/
def matchOne (p : Char → Bool) : List Char → Option (Nat × List Char)
  | a :: rest => if p a then some (digitVal a, rest) else none
  | _ => none

/-- `[1-9]`. -/
def isNonzeroDigit (c : Char) : Bool := '1' ≤ c && c ≤ '9'

/-- `%d`, regex `3[01]|[12]\d|0[1-9]|[1-9]| [1-9]`. -/
def matchDay (s : List Char) : Option (Nat × List Char) :=
  match matchTwo (fun c => c == '3') (fun c => c == '0' || c == '1') s with
  | some r => some r
  | none =>
  match matchTwo (fun c => c == '1' || c == '2') Char.isDigit s with
  | some r => some r
  | none =>
  match matchTwo (fun c => c == '0') isNonzeroDigit s with
  | some r => some r
  | none =>
  match matchOne isNonzeroDigit s with
  | some r => some r
  | none =>
  match s with
  | ' ' :: b :: rest => if isNonzeroDigit b then some (digitVal b, rest) else none
  | _ => none

/-- `%m`, regex `1[0-2]|0[1-9]|[1-9]`. -/
def matchMonth (s : List Char) : Option (Nat × List Char) :=
  match matchTwo (fun c => c == '1') (fun c => c == '0' || c == '1' || c == '2') s with
  | some r => some r
  | none =>
  match matchTwo (fun c => c == '0') isNonzeroDigit s with
  | some r => some r
  | none => matchOne isNonzeroDigit s

/-- `%Y`, regex `\d\d\d\d`. -/
def matchYear4 (s : List Char) : Option (Nat × List Char) :=
  match s with
  | a :: b :: c :: d :: rest =>
    if a.isDigit && b.isDigit && c.isDigit && d.isDigit then
      some (((digitVal a * 10 + digitVal b) * 10 + digitVal c) * 10 + digitVal d, rest)
    else none
  | _ => none

/-- `%H`, regex `2[0-3]|[0-1]\d|\d`. -/
def matchHour (s : List Char) : Option (Nat × List Char) :=
  match matchTwo (fun c => c == '2') (fun c => '0' ≤ c && c ≤ '3') s with
  | some r => some r
  | none =>
  match matchTwo (fun c => c == '0' || c == '1') Char.isDigit s with
  | some r => some r
  | none => matchOne Char.isDigit s

/-- `%M`, regex `[0-5]\d|\d`. -/
def matchMin60 (s : List Char) : Option (Nat × List Char) :=
  match matchTwo (fun c => '0' ≤ c && c ≤ '5') Char.isDigit s with
  | some r => some r
  | none => matchOne Char.isDigit s

/-- `%S`, regex `6[0-1]|[0-5]\d|\d` (leap seconds are accepted by the regex
but rejected by the `datetime` constructor below). -/
def matchSec (s : List Char) : Option (Nat × List Char) :=
  match matchTwo (fun c => c == '6') (fun c => c == '0' || c == '1') s with
  | some r => some r
  | none =>
  match matchTwo (fun c => '0' ≤ c && c ≤ '5') Char.isDigit s with
  | some r => some r
  | none => matchOne Char.isDigit s

/-- Match one literal character. -/
def litChar (c : Char) : List Char → Option (List Char)
  | x :: rest => if x = c then some rest else none
  | _ => none

/-- CPython regex `\s` for str patterns: exactly the characters for which
`Py_UNICODE_ISSPACE` holds. -/
def pyIsSpace (c : Char) : Bool :=
  (9 ≤ c.toNat && c.toNat ≤ 13) || (28 ≤ c.toNat && c.toNat ≤ 31) ||
  c.toNat == 32 || c.toNat == 133 || c.toNat == 160 || c.toNat == 5760 ||
  (8192 ≤ c.toNat && c.toNat ≤ 8202) || c.toNat == 8232 || c.toNat == 8233 ||
  c.toNat == 8239 || c.toNat == 8287 || c.toNat == 12288

/-- Drop a (possibly empty) run of whitespace characters. -/
def takeSpaces : List Char → List Char
  | [] => []
  | c :: rest => if pyIsSpace c then takeSpaces rest else c :: rest

/-- `\s+`: `_strptime` substitutes `\s+` for every whitespace run of the
format string, so the single space of `"%d.%m.%Y, %H:%M:%S"` matches one or
more whitespace characters of the input.  Greedy consumption is exact here:
the directive following the space starts with a digit, never whitespace. -/
def matchSpaces1 : List Char → Option (List Char)
  | [] => none
  | c :: rest => if pyIsSpace c then some (takeSpaces rest) else none

/-- Gregorian leap year (`calendar.isleap`). -/
def isLeapYear (y : Nat) : Bool := y % 4 == 0 && (y % 100 != 0 || y % 400 == 0)

/-- Number of days in a month. -/
def daysInMonth (y m : Nat) : Nat :=
  if m = 2 then (if isLeapYear y then 29 else 28)
  else if m = 4 || m = 6 || m = 9 || m = 11 then 30 else 31

/-- Field validation performed by the `datetime(year, month, day, hour,
minute, second)` constructor (`MINYEAR = 1`, `MAXYEAR = 9999`). -/
def datetime_ok (y m d h mi s : Nat) : Bool :=
  decide (1 ≤ y ∧ y ≤ 9999 ∧ 1 ≤ m ∧ m ≤ 12 ∧ 1 ≤ d ∧ d ≤ daysInMonth y m ∧
    h ≤ 23 ∧ mi ≤ 59 ∧ s ≤ 59)

/-- `parse_date` (wg_scraper.py lines 297-305): parse the fixed format
`DD.MM.YYYY, HH:MM:SS` (with `strptime`'s whitespace rule: the format's
space matches any non-empty whitespace run); any failure (pattern mismatch,
leftover input, constructor validation) yields `none`. -/
def parse_date (str : String) : Option DT := do
  let (d, r1) ← matchDay str.toList
  let r2 ← litChar '.' r1
  let (m, r3) ← matchMonth r2
  let r4 ← litChar '.' r3
  let (y, r5) ← matchYear4 r4
  let r6 ← litChar ',' r5
  let r7 ← matchSpaces1 r6
  let (h, r8) ← matchHour r7
  let r9 ← litChar ':' r8
  let (mi, r10) ← matchMin60 r9
  let r11 ← litChar ':' r10
  let (s, r12) ← matchSec r11
  if r12.isEmpty && datetime_ok y m d h mi s then
    some ⟨y, m, d, h, mi, s⟩
  else none

/-- In Python, `parse_date` receives the result of `dict.get` which may be
`None`; `strptime(None, ...)` raises `TypeError`, caught and mapped to `None`. -/
def parse_date_opt : Option String → Option DT
  | none => none
  | some s => parse_date s

/-- The validity predicate guaranteed by a successful parse: exactly the
`datetime` constructor constraints. -/
def ValidDT (t : DT) : Prop :=
  1 ≤ t.year ∧ t.year ≤ 9999 ∧ 1 ≤ t.month ∧ t.month ≤ 12 ∧ 1 ≤ t.day ∧
    t.day ≤ daysInMonth t.year t.month ∧ t.hour ≤ 23 ∧ t.minute ≤ 59 ∧ t.second ≤ 59

instance (t : DT) : Decidable (ValidDT t) := by unfold ValidDT; infer_instance

/-! ## The timestamp formatter (`strftime("%d.%m.%Y, %H:%M:%S")`,
wg_scraper.py lines 504 and 554), zero-padded fields. -/

/-- The decimal digit character for `n % 10`. -/
def digitChar (n : Nat) : Char := Char.ofNat (48 + n % 10)

/-- Two-digit zero-padded decimal (`%d`, `%m`, `%H`, `%M`, `%S`), for values below 100. -/
def pad2_chars (n : Nat) : List Char := [digitChar (n / 10), digitChar n]

/-- Four-digit decimal, the form `%Y` takes for years 1000-9999. -/
def pad4_chars (n : Nat) : List Char :=
  [digitChar (n / 1000), digitChar (n / 100), digitChar (n / 10), digitChar n]

/-- `%Y` as printed by the platform C library: the year as an *unpadded*
decimal number.  `datetime` years lie in 1..9999, so four branches suffice;
for years below 1000 the output (`"5"`, `"42"`, `"999"`) is not re-parsable
by the four-digit `%Y` of `strptime`. -/
def year_chars (y : Nat) : List Char :=
  if y < 10 then [digitChar y]
  else if y < 100 then [digitChar (y / 10), digitChar y]
  else if y < 1000 then [digitChar (y / 100), digitChar (y / 10), digitChar y]
  else pad4_chars y

/-- Character list of `t.strftime("%d.%m.%Y, %H:%M:%S")`. -/
def format_chars (t : DT) : List Char :=
  pad2_chars t.day ++ '.' ::
    (pad2_chars t.month ++ '.' ::
      (year_chars t.year ++ ',' :: ' ' ::
        (pad2_chars t.hour ++ ':' ::
          (pad2_chars t.minute ++ ':' :: pad2_chars t.second))))

/-- `t.strftime("%d.%m.%Y, %H:%M:%S")`. -/
def format_date (t : DT) : String := String.mk (format_chars t)

/-! ## Parse/format roundtrip -/

lemma isDigit_digitChar (k : Nat) : (digitChar k).isDigit = true := by
  obtain ⟨j, hj, hk⟩ : ∃ j, j ≤ 9 ∧ k % 10 = j := ⟨k % 10, by omega, rfl⟩
  unfold digitChar
  rw [hk]
  interval_cases j <;> decide

lemma digitVal_digitChar (k : Nat) : digitVal (digitChar k) = k % 10 := by
  obtain ⟨j, hj, hk⟩ : ∃ j, j ≤ 9 ∧ k % 10 = j := ⟨k % 10, by omega, rfl⟩
  unfold digitChar
  rw [hk]
  interval_cases j <;> decide

lemma matchDay_pad2 (n : Nat) (h1 : 1 ≤ n) (h2 : n ≤ 31) (rest : List Char) :
    matchDay (pad2_chars n ++ rest) = some (n, rest) := by
  obtain ⟨q, r, hq, hr, rfl⟩ : ∃ q r, q ≤ 3 ∧ r ≤ 9 ∧ n = 10 * q + r :=
    ⟨n / 10, n % 10, by omega, by omega, by omega⟩
  interval_cases q <;> interval_cases r <;> first | rfl | omega

lemma matchMonth_pad2 (n : Nat) (h1 : 1 ≤ n) (h2 : n ≤ 12) (rest : List Char) :
    matchMonth (pad2_chars n ++ rest) = some (n, rest) := by
  obtain ⟨q, r, hq, hr, rfl⟩ : ∃ q r, q ≤ 1 ∧ r ≤ 9 ∧ n = 10 * q + r :=
    ⟨n / 10, n % 10, by omega, by omega, by omega⟩
  interval_cases q <;> interval_cases r <;> first | rfl | omega

lemma matchHour_pad2 (n : Nat) (h2 : n ≤ 23) (rest : List Char) :
    matchHour (pad2_chars n ++ rest) = some (n, rest) := by
  obtain ⟨q, r, hq, hr, rfl⟩ : ∃ q r, q ≤ 2 ∧ r ≤ 9 ∧ n = 10 * q + r :=
    ⟨n / 10, n % 10, by omega, by omega, by omega⟩
  interval_cases q <;> interval_cases r <;> first | rfl | omega

lemma matchMin60_pad2 (n : Nat) (h2 : n ≤ 59) (rest : List Char) :
    matchMin60 (pad2_chars n ++ rest) = some (n, rest) := by
  obtain ⟨q, r, hq, hr, rfl⟩ : ∃ q r, q ≤ 5 ∧ r ≤ 9 ∧ n = 10 * q + r :=
    ⟨n / 10, n % 10, by omega, by omega, by omega⟩
  interval_cases q <;> interval_cases r <;> rfl

lemma matchSec_pad2 (n : Nat) (h2 : n ≤ 59) (rest : List Char) :
    matchSec (pad2_chars n ++ rest) = some (n, rest) := by
  obtain ⟨q, r, hq, hr, rfl⟩ : ∃ q r, q ≤ 5 ∧ r ≤ 9 ∧ n = 10 * q + r :=
    ⟨n / 10, n % 10, by omega, by omega, by omega⟩
  interval_cases q <;> interval_cases r <;> rfl

lemma matchSec_pad2_nil (n : Nat) (h2 : n ≤ 59) :
    matchSec (pad2_chars n) = some (n, []) := by
  have := matchSec_pad2 n h2 []
  rwa [List.append_nil] at this

lemma matchYear4_pad4 (n : Nat) (h : n ≤ 9999) (rest : List Char) :
    matchYear4 (pad4_chars n ++ rest) = some (n, rest) := by
  simp only [pad4_chars, List.cons_append, List.nil_append, matchYear4,
    isDigit_digitChar, Bool.and_self, if_true, digitVal_digitChar,
    Option.some.injEq, Prod.mk.injEq, and_true]
  omega

lemma mk_toList (l : List Char) : (String.mk l).toList = l := rfl

lemma pyIsSpace_digitChar (k : Nat) : pyIsSpace (digitChar k) = false := by
  obtain ⟨j, hj, hk⟩ : ∃ j, j ≤ 9 ∧ k % 10 = j := ⟨k % 10, by omega, rfl⟩
  unfold digitChar
  rw [hk]
  interval_cases j <;> decide

lemma matchSpaces1_pad2 (n : Nat) (rest : List Char) :
    matchSpaces1 (' ' :: (pad2_chars n ++ rest)) = some (pad2_chars n ++ rest) := by
  show (if pyIsSpace ' ' then some (takeSpaces (pad2_chars n ++ rest)) else none)
    = some (pad2_chars n ++ rest)
  simp only [show pyIsSpace ' ' = true from rfl, if_true, pad2_chars,
    List.cons_append, takeSpaces, pyIsSpace_digitChar, Bool.false_eq_true, if_false]
  rfl

lemma year_chars_eq_pad4 (y : Nat) (h1 : 1000 ≤ y) (h2 : y ≤ 9999) :
    year_chars y = pad4_chars y := by
  unfold year_chars
  rw [if_neg (by omega), if_neg (by omega), if_neg (by omega)]

/-- The roundtrip: formatting a constructor-valid datetime with a four-digit
year and re-parsing it recovers the same value.  (For years below 1000 the
platform strftime's unpadded `%Y` output does not re-parse, so no roundtrip
holds there.) -/
theorem parse_format_date (t : DT) (h : ValidDT t) (hy : 1000 ≤ t.year) :
    parse_date (format_date t) = some t := by
  obtain ⟨hy1, hy2, hm1, hm2, hd1, hd2, hhr, hmi, hsc⟩ := h
  have hd31 : t.day ≤ 31 := by
    refine le_trans hd2 ?_
    unfold daysInMonth
    split_ifs <;> omega
  have hok : datetime_ok t.year t.month t.day t.hour t.minute t.second = true := by
    unfold datetime_ok
    exact decide_eq_true ⟨hy1, hy2, hm1, hm2, hd1, hd2, hhr, hmi, hsc⟩
  simp only [parse_date, format_date, format_chars, mk_toList,
    matchDay_pad2 t.day hd1 hd31, Option.bind_eq_bind, Option.some_bind,
    litChar, if_pos rfl, matchMonth_pad2 t.month hm1 hm2,
    year_chars_eq_pad4 t.year hy hy2,
    matchYear4_pad4 t.year hy2, matchSpaces1_pad2, matchHour_pad2 t.hour hhr,
    matchMin60_pad2 t.minute hmi, matchSec_pad2_nil t.second hsc,
    List.isEmpty_nil, hok, Bool.and_self, if_true]

/-- A successful parse yields a constructor-valid datetime. -/
theorem parse_date_valid {s : String} {t : DT} (h : parse_date s = some t) :
    ValidDT t := by
  unfold parse_date at h
  simp only [Option.bind_eq_bind, Option.bind_eq_some] at h
  obtain ⟨⟨d, r1⟩, _, h⟩ := h
  obtain ⟨r2, _, h⟩ := h
  obtain ⟨⟨m, r3⟩, _, h⟩ := h
  obtain ⟨r4, _, h⟩ := h
  obtain ⟨⟨y, r5⟩, _, h⟩ := h
  obtain ⟨r6, _, h⟩ := h
  obtain ⟨r7, _, h⟩ := h
  obtain ⟨⟨hh, r8⟩, _, h⟩ := h
  obtain ⟨r9, _, h⟩ := h
  obtain ⟨⟨mi, r10⟩, _, h⟩ := h
  obtain ⟨r11, _, h⟩ := h
  obtain ⟨⟨sc, r12⟩, _, h⟩ := h
  split_ifs at h with hcond
  obtain ⟨-, hok⟩ := Bool.and_eq_true_iff.mp hcond
  obtain rfl : (⟨y, m, d, hh, mi, sc⟩ : DT) = t := by
    exact Option.some.inj h
  unfold datetime_ok at hok
  exact of_decide_eq_true hok

/-! ## Python `max` over datetimes -/

/-- One step of Python's builtin `max`: replace the accumulator only when the
next item is strictly greater (ties keep the earlier item). -/
def pymax_step (acc y : DT) : DT := if DT.ltb acc y then y else acc

/-- Python `max(list, default=None)` over datetimes. -/
def maxOfList : List DT → Option DT
  | [] => none
  | x :: xs => some (xs.foldl pymax_step x)

lemma pymax_step_pos {x y : DT} (h : DT.ltb x y = true) : pymax_step x y = y := by
  simp [pymax_step, h]

lemma pymax_step_neg {x y : DT} (h : DT.ltb x y = false) : pymax_step x y = x := by
  simp [pymax_step, h]

lemma foldl_pymax_mem (xs : List DT) (x : DT) :
    xs.foldl pymax_step x = x ∨ xs.foldl pymax_step x ∈ xs := by
  induction xs generalizing x with
  | nil => left; rfl
  | cons y ys ih =>
    simp only [List.foldl_cons]
    rcases ih (pymax_step x y) with h | h
    · cases hxy : DT.ltb x y with
      | true =>
        right
        rw [pymax_step_pos hxy] at h ⊢
        rw [h]
        exact List.mem_cons_self y ys
      | false =>
        left
        rw [pymax_step_neg hxy] at h ⊢
        exact h
    · right
      exact List.mem_cons_of_mem y h

lemma foldl_pymax_not_lt_init (xs : List DT) (x : DT) :
    DT.ltb (xs.foldl pymax_step x) x = false := by
  induction xs generalizing x with
  | nil => exact DT.ltb_irrefl x
  | cons y ys ih =>
    simp only [List.foldl_cons]
    refine DT.ge_trans (ih (pymax_step x y)) ?_
    cases hxy : DT.ltb x y with
    | true =>
      rw [pymax_step_pos hxy]
      exact DT.ltb_asymm hxy
    | false =>
      rw [pymax_step_neg hxy]
      exact DT.ltb_irrefl x

lemma foldl_pymax_not_lt_mem (xs : List DT) (x : DT) {t : DT} (ht : t ∈ xs) :
    DT.ltb (xs.foldl pymax_step x) t = false := by
  induction xs generalizing x with
  | nil => cases ht
  | cons y ys ih =>
    simp only [List.foldl_cons]
    rcases List.mem_cons.mp ht with rfl | h
    · refine DT.ge_trans (foldl_pymax_not_lt_init ys (pymax_step x t)) ?_
      cases hxy : DT.ltb x t with
      | true =>
        rw [pymax_step_pos hxy]
        exact DT.ltb_irrefl t
      | false =>
        rw [pymax_step_neg hxy]
        exact hxy
    · exact ih (pymax_step x y) h

lemma maxOfList_mem {l : List DT} {m : DT} (h : maxOfList l = some m) : m ∈ l := by
  cases l with
  | nil => cases h
  | cons x xs =>
    obtain rfl : xs.foldl pymax_step x = m := Option.some.inj h
    rcases foldl_pymax_mem xs x with h' | h'
    · rw [h']
      exact List.mem_cons_self x xs
    · exact List.mem_cons_of_mem x h'

lemma maxOfList_not_lt {l : List DT} {m : DT} (h : maxOfList l = some m)
    {t : DT} (ht : t ∈ l) : DT.ltb m t = false := by
  cases l with
  | nil => cases ht
  | cons x xs =>
    obtain rfl : xs.foldl pymax_step x = m := Option.some.inj h
    rcases List.mem_cons.mp ht with rfl | h'
    · exact foldl_pymax_not_lt_init xs t
    · exact foldl_pymax_not_lt_mem xs x h'

lemma maxOfList_eq_none_iff {l : List DT} : maxOfList l = none ↔ l = [] := by
  cases l <;> simp [maxOfList]

/-! ## Data model (spec §3; the Supabase `accounts` record as read/written by
`wg_scraper.py`).  Python `dict.get` is modelled by `Option` fields;
`dict.get(k, default)` by `Option.getD`. -/

/-- Truthiness of an optional string (`if s:` in Python): present and non-empty. -/
def truthyStr : Option String → Bool
  | none => false
  | some s => !(s == "")

/-- Python `str(x)` of an optional string as interpolated into an f-string:
`None` prints as `"None"`. -/
def pyStr : Option String → String
  | none => "None"
  | some s => s

/-- A fetched marketplace offer, i.e. one element of
`raw_response['_embedded']['offers']` (only the keys the scraper reads).
`public_name` stands for `o.get('user_data', {}).get('public_name')`. -/
structure Offer where
  offer_id : Option String
  offer_title : Option String
  user_id : Option String
  public_name : Option String
  date_of_entry_details : Option String
deriving DecidableEq, Repr

/-- A persisted new-listing record (the `formatted` dict built at
wg_scraper.py lines 533-540).  Its `date_of_entry_details` is the original
date string, which at construction time parsed successfully. -/
structure ListingRecord where
  offer_id : Option String
  title : Option String
  user_id : Option String
  public_name : Option String
  date_of_entry_details : String
  url : String
deriving DecidableEq, Repr

/-- The persisted `listing_data` JSON object: watermark string plus the most
recent cycle's new listings. -/
structure ListingData where
  last_latest : Option String
  offers : List ListingRecord
deriving DecidableEq, Repr

/-- The recognized keys of the account's `configuration` object.  The search
filters (`city_id`, `categories`, ...) only parameterize the fetch request,
which is an oracle input below. -/
structure Config where
  scrape_enabled : Bool
  contacted_ads : Nat
deriving DecidableEq, Repr

/-- Persisted session state (`session_details`), as produced by
`WgGesuchtClient.get_session_dict`. -/
structure SessionDetails where
  userId : Option String
  accessToken : Option String
  refreshToken : Option String
  devRefNo : Option String
  session_created_at : Option String
deriving DecidableEq, Repr

/-- One Supabase account record, restricted to the fields the scraper core
reads or writes. -/
structure Account where
  id : String
  email : String
  password : String
  configuration : Config
  session_details : Option SessionDetails
  listing_data : Option ListingData
  message : Option String
  last_updated_at : Option String
deriving DecidableEq, Repr

/-! ## `WgGesuchtClient.offers_all` query parameters
(wg_scraper.py lines 211-256).  The query-parameter dict is modelled as an
association list in insertion order. -/

def offers_all_params (cityId : String) (categories : Option (List Int))
    (rent_types : Option (List Int)) (page : String) (exclude_contacted : Bool)
    (max_rent : Option Int) (min_size : Option Int) : List (String × String) :=
  let categories := categories.getD [0, 1, 2, 3]
  let rent_types := rent_types.getD [1, 2]
  let categories_str := String.intercalate "," (categories.map toString)
  let rent_types_str := String.intercalate "," (rent_types.map toString)
  let params := [("ad_type", "0"), ("categories", categories_str),
    ("rent_types", rent_types_str), ("city_id", cityId), ("noDeact", "1"),
    ("img", "1"), ("limit", "50"), ("page", page)]
  let params := if exclude_contacted then params ++ [("exContAds", "1")] else params
  let params :=
    match max_rent with
    | some mr => if mr > 0 then params ++ [("rMax", toString (min mr 9999))] else params
    | none => params
  match min_size with
  | some ms => if ms > 0 then params ++ [("sMin", toString (min ms 999))] else params
  | none => params

/-! ## `ensure_valid_session` (wg_scraper.py lines 308-405)

The network and clock are an oracle `SessEnv`: `ageMinutes` is the value of
`(datetime.now() - fromisoformat(session_created_at)).total_seconds() / 60`
(`none` when `fromisoformat` raises), `refreshOk` the outcome of
`client.refresh_session()`, `profileOk` of `client.my_profile()`, `loginRes`
of `client.login(email, password)` (`True` / `False` / `'MFA_REQUIRED'`), and
`newSession` the `client.get_session_dict()` value that a successful
refresh/login would persist.  The function returns its boolean result, the
account record as persisted (session/configuration writes applied), and the
trace of client calls and store writes it performed. -/

/-- Trace items: remote-client calls and account-store writes. -/
inductive Act
  | profileCall
  | refreshCall
  | loginCall
  | writeSession
  | writeConfig
deriving DecidableEq, Repr

/-- Result of `client.login`: `True`, `False`, or `'MFA_REQUIRED'`. -/
inductive LoginRes
  | success
  | failure
  | mfaRequired
deriving DecidableEq, Repr

/-- Oracle inputs for one `ensure_valid_session` call. -/
structure SessEnv where
  ageMinutes : Option Rat
  refreshOk : Bool
  profileOk : Bool
  loginRes : LoginRes
  newSession : SessionDetails

/-- Persist a full replacement session (`supabase ... update({'session_details': ...})`). -/
def write_session (a : Account) (e : SessEnv) : Account :=
  { a with session_details := some e.newSession }

/-- `config['scrape_enabled'] = False` persisted to the store
(wg_scraper.py lines 387-391). -/
def disable_scrape (a : Account) : Account :=
  { a with configuration := { a.configuration with scrape_enabled := false } }

/-- Fallback validation path of `ensure_valid_session`
(wg_scraper.py lines 364-405): profile check, then token refresh, then full
re-login with explicit `'MFA_REQUIRED'` handling. -/
def session_fallback (a : Account) (e : SessEnv) : Bool × Account × List Act :=
  if e.profileOk then (true, a, [.profileCall])
  else if e.refreshOk then
    (true, write_session a e, [.profileCall, .refreshCall, .writeSession])
  else
    match e.loginRes with
    | .mfaRequired =>
      (false, disable_scrape a, [.profileCall, .refreshCall, .loginCall, .writeConfig])
    | .failure => (false, a, [.profileCall, .refreshCall, .loginCall])
    | .success =>
      (true, write_session a e, [.profileCall, .refreshCall, .loginCall, .writeSession])

/-- `ensure_valid_session` (wg_scraper.py lines 308-405).  Note the age>40
branch (lines 339-354) tests `if not client.login(...)`, under which the
truthy string `'MFA_REQUIRED'` counts as success. -/
def ensure_valid_session (a : Account) (e : SessEnv) : Bool × Account × List Act :=
  match a.session_details with
  | none => (false, a, [])
  | some sd =>
    if truthyStr sd.session_created_at then
      match e.ageMinutes with
      | some age =>
        if age > 40 then
          if e.refreshOk then
            (true, write_session a e, [.refreshCall, .writeSession])
          else
            match e.loginRes with
            | .failure => (false, a, [.refreshCall, .loginCall])
            | _ =>
              (true, write_session a e, [.refreshCall, .loginCall, .writeSession])
        else (true, a, [])
      | none => session_fallback a e
    else session_fallback a e

/-- `ensure_valid_session` never touches `listing_data`, `message`,
`last_updated_at`, identity fields, or the `contacted_ads` counter. -/
lemma ensure_valid_session_frame (a : Account) (e : SessEnv) :
    (ensure_valid_session a e).2.1.listing_data = a.listing_data ∧
    (ensure_valid_session a e).2.1.message = a.message ∧
    (ensure_valid_session a e).2.1.last_updated_at = a.last_updated_at ∧
    (ensure_valid_session a e).2.1.configuration.contacted_ads
      = a.configuration.contacted_ads ∧
    (ensure_valid_session a e).2.1.id = a.id ∧
    (ensure_valid_session a e).2.1.email = a.email ∧
    (ensure_valid_session a e).2.1.password = a.password := by
  unfold ensure_valid_session session_fallback write_session disable_scrape
  rcases a.session_details with _ | sd
  · exact ⟨rfl, rfl, rfl, rfl, rfl, rfl, rfl⟩
  · simp only
    split
    · rcases e.ageMinutes with _ | age
      · split_ifs <;> first
          | exact ⟨rfl, rfl, rfl, rfl, rfl, rfl, rfl⟩
          | (rcases e.loginRes <;> exact ⟨rfl, rfl, rfl, rfl, rfl, rfl, rfl⟩)
      · simp only
        split_ifs <;> first
          | exact ⟨rfl, rfl, rfl, rfl, rfl, rfl, rfl⟩
          | (rcases e.loginRes <;> exact ⟨rfl, rfl, rfl, rfl, rfl, rfl, rfl⟩)
    · split_ifs <;> first
        | exact ⟨rfl, rfl, rfl, rfl, rfl, rfl, rfl⟩
        | (rcases e.loginRes <;> exact ⟨rfl, rfl, rfl, rfl, rfl, rfl, rfl⟩)

/-! ## The reconciliation pipeline `run_scraper_for_account`
(wg_scraper.py lines 412-641)

Oracle inputs (`RunEnv`): the two `ensure_valid_session` environments, the
fetch result (`none` = `offers_all` returned a falsy response), the
`datetime.now().isoformat()` string written to `last_updated_at`, whether
the main `listing_data` save (lines 570-581, the only write wrapped in
`try/except`) succeeds, the per-offer outcome of `contact_offer`, and
whether the `contacted_ads` counter update (lines 622-636) succeeds. -/

def BASE_URL : String := "https://www.wg-gesucht.de"

/-- The `formatted` record built for a new offer (wg_scraper.py lines 533-540). -/
def mkRecord (o : Offer) : ListingRecord :=
  { offer_id := o.offer_id
    title := o.offer_title
    user_id := o.user_id
    public_name := o.public_name
    date_of_entry_details := o.date_of_entry_details.getD ""
    url := BASE_URL ++ "/" ++ pyStr o.offer_id ++ ".html" }

/-- `all_times` (lines 493-497): parse the entry timestamp of every offer
whose `date_of_entry_details` is truthy. -/
def all_times (offers : List Offer) : List (Option DT) :=
  (offers.filter (fun o => truthyStr o.date_of_entry_details)).map
    (fun o => parse_date_opt o.date_of_entry_details)

/-- `latest_time_in_fetch` (line 498): `max([t for t in all_times if t], default=None)`. -/
def latest_time_in_fetch (offers : List Offer) : Option DT :=
  maxOfList ((all_times offers).filterMap id)

/-- Whether a fetched offer counts as new against watermark `w`: its
timestamp parses and is strictly greater (lines 526-532). -/
def offer_is_new (w : DT) (o : Offer) : Bool :=
  match parse_date_opt o.date_of_entry_details with
  | none => false
  | some t => DT.ltb w t

/-- The `new_offers` loop (lines 525-541). -/
def new_offers (offers : List Offer) (w : DT) : List ListingRecord :=
  offers.filterMap (fun o =>
    match parse_date_opt o.date_of_entry_details with
    | none => none
    | some t => if DT.ltb w t then some (mkRecord o) else none)

/-- Sort key of the descending sort (lines 557-561):
`parse_date(x['date_of_entry_details']) or datetime.min`. -/
def sort_key (r : ListingRecord) : DT :=
  (parse_date r.date_of_entry_details).getD ⟨1, 1, 1, 0, 0, 0⟩

/-- Stable descending insertion: `x` (which precedes every element of the
sorted tail in the original list) passes the strictly newer elements and stops
before the first element not newer than it, so equal-timestamp records keep
their fetch order — as Python's stable `sorted(..., reverse=True)` does. -/
def insert_desc (x : ListingRecord) : List ListingRecord → List ListingRecord
  | [] => [x]
  | y :: ys =>
    if DT.ltb (sort_key x) (sort_key y) then y :: insert_desc x ys else x :: y :: ys

/-- `sorted(new_offers, key=..., reverse=True)` (lines 557-561). -/
def sort_desc : List ListingRecord → List ListingRecord
  | [] => []
  | x :: xs => insert_desc x (sort_desc xs)

/-- The prior watermark as a datetime (lines 487-490):
`parse_date(last_latest_str) if last_latest_str else None`, reading
`account.get('listing_data', {}) or {}`. -/
def account_watermark (a : Account) : Option DT :=
  match (a.listing_data.getD ⟨none, []⟩).last_latest with
  | some s => if s == "" then none else parse_date s
  | none => none

/-- Truthiness of the auto-contact message (line 589):
`not contact_message or not contact_message.strip()` skips the phase. -/
def msg_active : Option String → Bool
  | none => false
  | some s => !(s == "") && !(s.trim == "")

/-- Oracle inputs for one full `run_scraper_for_account` cycle. -/
structure RunEnv where
  sess1 : SessEnv
  fetch : Option (List Offer)
  nowIso : String
  persistOk : Bool
  sess2 : SessEnv
  contactOk : Nat → Bool
  counterOk : Bool

/-- The auto-contact phase (lines 587-638): skip without a usable message,
re-validate the session once for the whole batch, contact each offer
independently, and on at least one success add the success count to the
persisted `contacted_ads` counter.  Returns the account as persisted; the
function result is unaffected by this phase. -/
def contact_phase (a : Account) (env : RunEnv) (n : Nat) : Account :=
  if !msg_active a.message then a
  else if !(ensure_valid_session a env.sess2).1 then (ensure_valid_session a env.sess2).2.1
  else if 0 < ((List.range n).filter env.contactOk).length then
    if env.counterOk then
      { (ensure_valid_session a env.sess2).2.1 with configuration :=
        { (ensure_valid_session a env.sess2).2.1.configuration with
            contacted_ads := (ensure_valid_session a env.sess2).2.1.configuration.contacted_ads
              + ((List.range n).filter env.contactOk).length } }
    else (ensure_valid_session a env.sess2).2.1
  else (ensure_valid_session a env.sess2).2.1

/-- `run_scraper_for_account` (wg_scraper.py lines 412-641): returns the
`(success, new_offers_count)` pair together with the account record as
persisted at the end of the cycle. -/
def run_scraper_for_account (acct : Account) (env : RunEnv) : Bool × Nat × Account :=
  let r1 := ensure_valid_session acct env.sess1
  if !r1.1 then (false, 0, r1.2.1)
  else
    match env.fetch with
    | none => (false, 0, r1.2.1)
    | some offers =>
      let acct1 := r1.2.1
      match account_watermark acct1 with
      | none =>
        let latest_str := (latest_time_in_fetch offers).map format_date
        (true, 0, { acct1 with
          listing_data := some ⟨latest_str, []⟩
          last_updated_at := some env.nowIso })
      | some w =>
        let nos := new_offers offers w
        if nos.isEmpty then
          (true, 0, { acct1 with last_updated_at := some env.nowIso })
        else
          let newest := (maxOfList (nos.filterMap
            (fun r => parse_date r.date_of_entry_details))).getD ⟨1, 1, 1, 0, 0, 0⟩
          let sorted := sort_desc nos
          if !env.persistOk then (false, 0, acct1)
          else
            let acct2 := { acct1 with
              listing_data := some ⟨some (format_date newest), sorted⟩
              last_updated_at := some env.nowIso }
            (true, nos.length, contact_phase acct2 env nos.length)

/-- The persisted watermark string of an account. -/
def persisted_watermark (a : Account) : Option String :=
  (a.listing_data.getD ⟨none, []⟩).last_latest

/-- The persisted new-listing record set of an account. -/
def persisted_offers (a : Account) : List ListingRecord :=
  (a.listing_data.getD ⟨none, []⟩).offers

/-- The account state after one reconciliation cycle. -/
def scrape_step (a : Account) (env : RunEnv) : Account :=
  (run_scraper_for_account a env).2.2

/-- The trajectory of account states along a sequence of cycles
(initial state included). -/
def cycle_states (a : Account) (envs : List RunEnv) : List Account :=
  envs.scanl scrape_step a

/-! ## Supporting lemmas about the reconciliation pipeline -/

lemma new_offers_eq_filter_map (offers : List Offer) (w : DT) :
    new_offers offers w = (offers.filter (offer_is_new w)).map mkRecord := by
  induction offers with
  | nil => rfl
  | cons o os ih =>
    unfold new_offers at ih ⊢
    rw [List.filterMap_cons, List.filter_cons]
    unfold offer_is_new
    rcases hpo : parse_date_opt o.date_of_entry_details with _ | t
    · simpa [hpo] using ih
    · rcases hlt : DT.ltb w t with _ | _
      · simpa [hpo, hlt] using ih
      · simpa [hpo, hlt] using ih

lemma new_offers_mem {offers : List Offer} {w : DT} {r : ListingRecord}
    (h : r ∈ new_offers offers w) :
    ∃ t, parse_date r.date_of_entry_details = some t ∧ DT.ltb w t = true := by
  rw [new_offers_eq_filter_map] at h
  obtain ⟨o, ho, rfl⟩ := List.mem_map.mp h
  have hnew : offer_is_new w o = true := List.of_mem_filter ho
  unfold offer_is_new at hnew
  rcases hpo : parse_date_opt o.date_of_entry_details with _ | t
  · rw [hpo] at hnew
    simp at hnew
  · rw [hpo] at hnew
    simp only at hnew
    rcases hdos : o.date_of_entry_details with _ | s
    · rw [hdos] at hpo
      simp [parse_date_opt] at hpo
    · rw [hdos] at hpo
      simp only [parse_date_opt] at hpo
      refine ⟨t, ?_, hnew⟩
      simpa [mkRecord, hdos] using hpo

lemma new_offers_times (offers : List Offer) (w : DT) :
    (new_offers offers w).filterMap (fun r => parse_date r.date_of_entry_details)
      = (offers.filterMap (fun o => parse_date_opt o.date_of_entry_details)).filter
          (fun t => DT.ltb w t) := by
  induction offers with
  | nil => rfl
  | cons o os ih =>
    unfold new_offers at ih ⊢
    rw [List.filterMap_cons, List.filterMap_cons]
    rcases hpo : parse_date_opt o.date_of_entry_details with _ | t
    · simpa using ih
    · rcases hlt : DT.ltb w t with _ | _
      · simp only [hlt, Bool.false_eq_true, if_false, List.filter_cons, ih]
      · rcases hdos : o.date_of_entry_details with _ | s
        · rw [hdos] at hpo
          cases hpo
        · rw [hdos] at hpo
          simp only [hlt, if_true, List.filterMap_cons, List.filter_cons]
          have hmk : parse_date (mkRecord o).date_of_entry_details = some t := by
            simpa [mkRecord, hdos] using hpo
          rw [hmk]
          simp only [hlt, if_true, ih]

lemma all_times_parsed (offers : List Offer) :
    (all_times offers).filterMap id
      = offers.filterMap (fun o => parse_date_opt o.date_of_entry_details) := by
  induction offers with
  | nil => rfl
  | cons o os ih =>
    unfold all_times at ih ⊢
    rw [List.filter_cons, List.filterMap_cons]
    rcases hdos : o.date_of_entry_details with _ | s
    · simpa [truthyStr, hdos, parse_date_opt] using ih
    · rcases hse : s == "" with _ | _
      · rcases hp : parse_date s with _ | t <;>
          simpa [truthyStr, hdos, hse, parse_date_opt, hp] using ih
      · obtain rfl : s = "" := by simpa using hse
        simpa [truthyStr, hdos, hse, parse_date_opt,
          show parse_date "" = none from rfl] using ih

lemma insert_desc_perm (x : ListingRecord) (l : List ListingRecord) :
    (insert_desc x l).Perm (x :: l) := by
  induction l with
  | nil => exact List.Perm.refl _
  | cons y ys ih =>
    unfold insert_desc
    split
    · exact List.Perm.trans (List.Perm.cons y ih) (List.Perm.swap x y ys)
    · exact List.Perm.refl _

lemma sort_desc_perm (l : List ListingRecord) : (sort_desc l).Perm l := by
  induction l with
  | nil => exact List.Perm.refl _
  | cons x xs ih =>
    unfold sort_desc
    exact List.Perm.trans (insert_desc_perm x (sort_desc xs)) (List.Perm.cons x ih)

lemma account_watermark_congr {a b : Account} (h : a.listing_data = b.listing_data) :
    account_watermark a = account_watermark b := by
  unfold account_watermark
  rw [h]

lemma contact_phase_frame (a : Account) (env : RunEnv) (n : Nat) :
    (contact_phase a env n).listing_data = a.listing_data ∧
    (contact_phase a env n).last_updated_at = a.last_updated_at := by
  have hf := ensure_valid_session_frame a env.sess2
  unfold contact_phase
  split_ifs <;> exact ⟨by simp [hf.1], by simp [hf.2.2.1]⟩

lemma run_scraper_first_run (acct : Account) (env : RunEnv) (offers : List Offer)
    (hs : (ensure_valid_session acct env.sess1).1 = true)
    (hf : env.fetch = some offers)
    (hw : account_watermark acct = none) :
    run_scraper_for_account acct env =
      (true, 0, { (ensure_valid_session acct env.sess1).2.1 with
        listing_data := some ⟨(latest_time_in_fetch offers).map format_date, []⟩
        last_updated_at := some env.nowIso }) := by
  have hw1 : account_watermark (ensure_valid_session acct env.sess1).2.1 = none := by
    rw [account_watermark_congr (ensure_valid_session_frame acct env.sess1).1]
    exact hw
  simp only [run_scraper_for_account, hf, hs, hw1, Bool.not_true, Bool.false_eq_true,
    if_false]

lemma run_scraper_subsequent (acct : Account) (env : RunEnv) (offers : List Offer) (w : DT)
    (hs : (ensure_valid_session acct env.sess1).1 = true)
    (hf : env.fetch = some offers)
    (hw : account_watermark acct = some w) :
    run_scraper_for_account acct env =
      (if (new_offers offers w).isEmpty then
        (true, 0, { (ensure_valid_session acct env.sess1).2.1 with
          last_updated_at := some env.nowIso })
      else if !env.persistOk then (false, 0, (ensure_valid_session acct env.sess1).2.1)
      else
        (true, (new_offers offers w).length,
          contact_phase
            { (ensure_valid_session acct env.sess1).2.1 with
              listing_data := some ⟨some (format_date
                ((maxOfList ((new_offers offers w).filterMap
                  (fun r => parse_date r.date_of_entry_details))).getD ⟨1, 1, 1, 0, 0, 0⟩)),
                sort_desc (new_offers offers w)⟩
              last_updated_at := some env.nowIso }
            env (new_offers offers w).length)) := by
  have hw1 : account_watermark (ensure_valid_session acct env.sess1).2.1 = some w := by
    rw [account_watermark_congr (ensure_valid_session_frame acct env.sess1).1]
    exact hw
  simp only [run_scraper_for_account, hf, hs, hw1, Bool.not_true, Bool.false_eq_true,
    if_false]

lemma format_date_ne_empty (t : DT) : (format_date t == "") = false := by
  rw [beq_eq_false_iff_ne]
  intro hcontra
  have hdata : (format_date t).data = ([] : List Char) := by rw [hcontra]
  simp [format_date, format_chars, pad2_chars] at hdata

lemma account_watermark_set (a : Account) (m : DT) (l : List ListingRecord)
    (x : Option String) (hm : ValidDT m) (hy : 1000 ≤ m.year) :
    account_watermark { a with
      listing_data := some { last_latest := some (format_date m), offers := l }
      last_updated_at := x } = some m := by
  unfold account_watermark
  simp only [Option.getD_some, format_date_ne_empty, Bool.false_eq_true, if_false]
  exact parse_format_date m hm hy

lemma account_watermark_eq_of_persisted {a b : Account}
    (h : persisted_watermark a = persisted_watermark b) :
    account_watermark a = account_watermark b := by
  unfold account_watermark
  unfold persisted_watermark at h
  rw [h]

lemma new_offers_filterMap_ne_nil {offers : List Offer} {w : DT}
    (h : new_offers offers w ≠ []) :
    (new_offers offers w).filterMap (fun r => parse_date r.date_of_entry_details) ≠ [] := by
  obtain ⟨r, hr⟩ := List.exists_mem_of_ne_nil _ h
  obtain ⟨t, ht, -⟩ := new_offers_mem hr
  intro hcontra
  have hmem : t ∈ (new_offers offers w).filterMap
      (fun r => parse_date r.date_of_entry_details) :=
    List.mem_filterMap.mpr ⟨r, hr, ht⟩
  rw [hcontra] at hmem
  cases hmem

lemma newest_time_spec {offers : List Offer} {w : DT} (h : new_offers offers w ≠ []) :
    ∃ m, maxOfList ((new_offers offers w).filterMap
        (fun r => parse_date r.date_of_entry_details)) = some m ∧
      ValidDT m ∧ DT.ltb w m = true := by
  have hne := new_offers_filterMap_ne_nil h
  rcases hmx : maxOfList ((new_offers offers w).filterMap
      (fun r => parse_date r.date_of_entry_details)) with _ | m
  · exact absurd (maxOfList_eq_none_iff.mp hmx) hne
  · refine ⟨m, hmx, ?_, ?_⟩
    · obtain ⟨r, hr, hparse⟩ := List.mem_filterMap.mp (maxOfList_mem hmx)
      exact parse_date_valid hparse
    · obtain ⟨r, hr, hparse⟩ := List.mem_filterMap.mp (maxOfList_mem hmx)
      obtain ⟨t, ht, hlt⟩ := new_offers_mem hr
      rw [ht] at hparse
      obtain rfl := Option.some.inj hparse
      exact hlt

lemma offer_is_new_false {w : DT} {o : Offer}
    (h : ∀ t, parse_date_opt o.date_of_entry_details = some t → DT.ltb w t = false) :
    offer_is_new w o = false := by
  unfold offer_is_new
  rcases hp : parse_date_opt o.date_of_entry_details with _ | t <;> simp [hp]
  exact h t hp

lemma new_offers_eq_nil_of_none_newer {offers : List Offer} {w : DT}
    (h : ∀ o ∈ offers, ∀ t, parse_date_opt o.date_of_entry_details = some t →
      DT.ltb w t = false) :
    new_offers offers w = [] := by
  rw [new_offers_eq_filter_map]
  have hfil : offers.filter (offer_is_new w) = [] := by
    rw [List.filter_eq_nil_iff]
    intro o ho
    rw [offer_is_new_false (h o ho)]
    exact Bool.false_ne_true
  rw [hfil]
  rfl

/-! ## Concrete records used by the witness theorems -/

/-- A concrete persisted session, 10 minutes old in `fresh_sess_env`. -/
def sdemo : SessionDetails :=
  ⟨some "u1", some "tokA", some "tokR", some "dev1", some "2025-10-20T09:50:00"⟩

/-- A session environment in which the session is fresh (age 10 ≤ 40):
`ensure_valid_session` succeeds without any call or write. -/
def fresh_sess_env : SessEnv := ⟨some 10, true, true, .success, sdemo⟩

/-- Offer at the watermark timestamp (not new). -/
def offer_at : Offer := ⟨some "100", some "A", some "u1", some "P1", some "20.10.2025, 10:00:00"⟩

/-- Offer five minutes past the watermark (new). -/
def offer_after : Offer := ⟨some "101", some "B", some "u2", some "P2", some "20.10.2025, 10:05:00"⟩

/-- Offer before the watermark (not new). -/
def offer_before : Offer := ⟨some "102", some "C", some "u3", some "P3", some "20.10.2025, 09:55:00"⟩

/-- The spec §8 scenario fetch. -/
def demo_offers : List Offer := [offer_at, offer_after, offer_before]

/-- The parsed demo watermark `"20.10.2025, 10:00:00"`. -/
def demo_w : DT := ⟨2025, 10, 20, 10, 0, 0⟩

/-- An account holding the demo watermark and one previously persisted listing. -/
def demo_account : Account :=
  ⟨"acc1", "a@example.com", "pw", ⟨true, 0⟩, some sdemo,
    some ⟨some "20.10.2025, 10:00:00",
      [⟨some "9", some "old", none, none, "19.10.2025, 09:00:00", "u"⟩]⟩,
    some "hello", none⟩

/-- A full cycle environment: fresh session, demo fetch, persistence succeeds,
every contact send succeeds. -/
def demo_env : RunEnv :=
  ⟨fresh_sess_env, some demo_offers, "2025-10-20T10:30:00", true, fresh_sess_env,
    fun _ => true, true⟩

/-! ## Claim theorems -/

/-- C7: for every account whose persisted session state is absent,
`ensure_valid_session` fails immediately without attempting any login, refresh
or profile call (empty trace) and without modifying any persisted account
field, and `run_scraper_for_account` returns `(False, 0)` with the account
unchanged. -/
theorem C7_no_session_fails_immediately (a : Account) (e : SessEnv) (env : RunEnv)
    (h : a.session_details = none) :
    ensure_valid_session a e = (false, a, []) ∧
    run_scraper_for_account a env = (false, 0, a) := by
  have h1 : ensure_valid_session a env.sess1 = (false, a, []) := by
    unfold ensure_valid_session
    rw [h]
  constructor
  · unfold ensure_valid_session
    rw [h]
  · simp [run_scraper_for_account, h1]

/-- An account with no persisted session state. -/
def no_sess_account : Account :=
  ⟨"acc2", "b@example.com", "pw", ⟨true, 0⟩, none, none, none, none⟩

/-- Witness for C7 at a concrete account and environment. -/
theorem C7_witness :
    no_sess_account.session_details = none ∧
    ensure_valid_session no_sess_account fresh_sess_env = (false, no_sess_account, []) ∧
    run_scraper_for_account no_sess_account demo_env = (false, 0, no_sess_account) :=
  ⟨rfl, (C7_no_session_fails_immediately no_sess_account fresh_sess_env demo_env rfl).1,
    (C7_no_session_fails_immediately no_sess_account fresh_sess_env demo_env rfl).2⟩

/-- The failing input for C4: persisted session 45 minutes old, token refresh
fails, re-login answers the two-factor challenge `'MFA_REQUIRED'`. -/
def mfa_env : SessEnv := ⟨some 45, false, false, .mfaRequired, sdemo⟩

/-- C4 (code bug, wg_scraper.py lines 339-354): on the stale-session path the
code tests `if not client.login(...)`, and the truthy string `'MFA_REQUIRED'`
passes that test.  At the failing input the function reports success, leaves
`scrape_enabled` set, and persists a session write — instead of clearing the
flag and reporting failure as the two-factor lockout claim requires (which the
fallback path, lines 382-397, does do). -/
theorem C4_mfa_during_stale_relogin_bug :
    (ensure_valid_session demo_account mfa_env).1 = true ∧
    (ensure_valid_session demo_account mfa_env).2.1.configuration.scrape_enabled = true ∧
    (ensure_valid_session demo_account mfa_env).2.2
      = [.refreshCall, .loginCall, .writeSession] := by
  refine ⟨?_, ?_, ?_⟩ <;> rfl

/-- C8: for positive `max_rent` and `min_size`, the query parameters built by
`offers_all` carry `rMax = min(max_rent, 9999)` and `sMin = min(min_size, 999)`
— values above the remote maxima are clamped, not rejected. -/
theorem C8_bounds_clamped (cityId : String) (categories rent_types : Option (List Int))
    (page : String) (exclude_contacted : Bool) (mr ms : Int)
    (hmr : 0 < mr) (hms : 0 < ms) :
    (offers_all_params cityId categories rent_types page exclude_contacted
        (some mr) (some ms)).lookup "rMax" = some (toString (min mr 9999)) ∧
    (offers_all_params cityId categories rent_types page exclude_contacted
        (some mr) (some ms)).lookup "sMin" = some (toString (min ms 999)) := by
  rcases exclude_contacted <;>
    simp [offers_all_params, List.lookup, hmr, hms]

/-- Witness for C8: `max_rent = 12000` and `min_size = 2000` are clamped to
`9999` and `999`. -/
theorem C8_witness :
    (0 : Int) < 12000 ∧ (0 : Int) < 2000 ∧
    (offers_all_params "90" none none "1" true (some 12000) (some 2000)).lookup "rMax"
      = some (toString (min (12000 : Int) 9999)) ∧
    (offers_all_params "90" none none "1" true (some 12000) (some 2000)).lookup "sMin"
      = some (toString (min (2000 : Int) 999)) :=
  ⟨by decide, by decide,
    (C8_bounds_clamped "90" none none "1" true 12000 2000 (by decide) (by decide)).1,
    (C8_bounds_clamped "90" none none "1" true 12000 2000 (by decide) (by decide)).2⟩

lemma persisted_offers_contact (A : Account) (env : RunEnv) (n : Nat) :
    persisted_offers (contact_phase A env n) = persisted_offers A := by
  unfold persisted_offers
  rw [(contact_phase_frame A env n).1]

lemma persisted_watermark_contact (A : Account) (env : RunEnv) (n : Nat) :
    persisted_watermark (contact_phase A env n) = persisted_watermark A := by
  unfold persisted_watermark
  rw [(contact_phase_frame A env n).1]

/-- C6: on a cycle with a prior (parsable) watermark where no fetched offer is
strictly newer, the cycle reports success with count 0, leaves `listing_data`
(persisted listing set and watermark) unchanged, and still updates the
last-updated timestamp. -/
theorem C6_no_newer_is_frame (acct : Account) (env : RunEnv) (offers : List Offer) (w : DT)
    (hs : (ensure_valid_session acct env.sess1).1 = true)
    (hf : env.fetch = some offers)
    (hw : account_watermark acct = some w)
    (hnone : ∀ o ∈ offers, offer_is_new w o = false) :
    (run_scraper_for_account acct env).1 = true ∧
    (run_scraper_for_account acct env).2.1 = 0 ∧
    (run_scraper_for_account acct env).2.2.listing_data = acct.listing_data ∧
    (run_scraper_for_account acct env).2.2.last_updated_at = some env.nowIso := by
  have hnil : new_offers offers w = [] := by
    rw [new_offers_eq_filter_map]
    have hfil : offers.filter (offer_is_new w) = [] :=
      List.filter_eq_nil_iff.mpr (fun o ho => by simp [hnone o ho])
    rw [hfil]
    rfl
  rw [run_scraper_subsequent acct env offers w hs hf hw]
  simp only [hnil, List.isEmpty_nil, if_true]
  exact ⟨trivial, trivial, (ensure_valid_session_frame acct env.sess1).1, trivial⟩

/-- C10: once the watermark path is taken and the reconciled listing set can
be persisted, the cycle result is `(True, n)` with `n` the number of newly
detected listings — for every auto-contact configuration: missing or blank
message, failing pre-batch session check, and arbitrary per-send outcomes
(`env.sess2`, `env.contactOk`, `env.counterOk` are unconstrained). -/
theorem C10_result_independent_of_contact (acct : Account) (env : RunEnv)
    (offers : List Offer) (w : DT)
    (hs : (ensure_valid_session acct env.sess1).1 = true)
    (hf : env.fetch = some offers)
    (hw : account_watermark acct = some w)
    (hp : env.persistOk = true) :
    (run_scraper_for_account acct env).1 = true ∧
    (run_scraper_for_account acct env).2.1 = (new_offers offers w).length := by
  rw [run_scraper_subsequent acct env offers w hs hf hw]
  rcases hie : (new_offers offers w).isEmpty with _ | _
  · simp [hie, hp]
  · have : new_offers offers w = [] := List.isEmpty_iff.mp hie
    simp [hie, this]

/-- Shape of the persisted state after a successful non-empty reconciliation:
the stored offers are the descending sort of the cycle's new-listing set and
the stored watermark string is the formatted maximum of its timestamps. -/
lemma run_scraper_persist_shape (acct : Account) (env : RunEnv)
    (offers : List Offer) (w : DT)
    (hs : (ensure_valid_session acct env.sess1).1 = true)
    (hf : env.fetch = some offers)
    (hw : account_watermark acct = some w)
    (hne : new_offers offers w ≠ [])
    (hp : env.persistOk = true) :
    persisted_offers (run_scraper_for_account acct env).2.2
      = sort_desc (new_offers offers w) ∧
    persisted_watermark (run_scraper_for_account acct env).2.2
      = some (format_date ((maxOfList ((new_offers offers w).filterMap
          (fun r => parse_date r.date_of_entry_details))).getD ⟨1, 1, 1, 0, 0, 0⟩)) := by
  rw [run_scraper_subsequent acct env offers w hs hf hw]
  have hie : (new_offers offers w).isEmpty = false := by
    simp [List.isEmpty_iff, hne]
  simp only [hie, Bool.false_eq_true, if_false, hp, Bool.not_true]
  rw [persisted_offers_contact, persisted_watermark_contact]
  exact ⟨by simp [persisted_offers], by simp [persisted_watermark]⟩

/-- Whether an offer's entry timestamp, when it parses, has a four-digit year
— the range in which the platform strftime's unpadded `%Y` output re-parses. -/
def offer_year_ok (o : Offer) : Bool :=
  match parse_date_opt o.date_of_entry_details with
  | some t => decide (1000 ≤ t.year)
  | none => true

lemma offer_year_ok_spec {o : Offer} {t : DT} (h : offer_year_ok o = true)
    (hp : parse_date_opt o.date_of_entry_details = some t) : 1000 ≤ t.year := by
  unfold offer_year_ok at h
  rw [hp] at h
  exact of_decide_eq_true h

lemma newest_time_from_fetch {offers : List Offer} {w : DT} {m : DT}
    (hmx : maxOfList ((new_offers offers w).filterMap
      (fun r => parse_date r.date_of_entry_details)) = some m) :
    ∃ o ∈ offers, parse_date_opt o.date_of_entry_details = some m := by
  have hmem := maxOfList_mem hmx
  rw [new_offers_times] at hmem
  obtain ⟨o, ho, hpo⟩ := List.mem_filterMap.mp (List.mem_filter.mp hmem).1
  exact ⟨o, ho, hpo⟩

/-- Watermark evolution across one cycle: either the persisted watermark
string is left unchanged, or the old and new watermarks both parse and the
new one is strictly greater. -/
def wm_step_rel (a b : Account) : Prop :=
  persisted_watermark b = persisted_watermark a ∨
  ∃ u v, account_watermark a = some u ∧ account_watermark b = some v ∧
    DT.ltb u v = true

lemma watermark_step (a : Account) (env : RunEnv) {w : DT}
    (hw : account_watermark a = some w)
    (hyo : ∀ o ∈ env.fetch.getD [], offer_year_ok o = true) :
    persisted_watermark (scrape_step a env) = persisted_watermark a ∨
    ∃ m, account_watermark (scrape_step a env) = some m ∧ DT.ltb w m = true := by
  unfold scrape_step
  rcases hs : (ensure_valid_session a env.sess1).1 with _ | _
  · left
    simp only [run_scraper_for_account, hs, Bool.not_false, if_true]
    unfold persisted_watermark
    rw [(ensure_valid_session_frame a env.sess1).1]
  · rcases hf : env.fetch with _ | offers
    · left
      simp only [run_scraper_for_account, hs, hf, Bool.not_true, Bool.false_eq_true,
        if_false]
      unfold persisted_watermark
      rw [(ensure_valid_session_frame a env.sess1).1]
    · rw [run_scraper_subsequent a env offers w hs hf hw]
      by_cases hne : new_offers offers w = []
      · left
        simp only [hne, List.isEmpty_nil, if_true]
        unfold persisted_watermark
        rw [show ({ (ensure_valid_session a env.sess1).2.1 with
            last_updated_at := some env.nowIso } : Account).listing_data
          = (ensure_valid_session a env.sess1).2.1.listing_data from rfl]
        rw [(ensure_valid_session_frame a env.sess1).1]
      · have hie : (new_offers offers w).isEmpty = false := by
          simp [List.isEmpty_iff, hne]
        simp only [hie, Bool.false_eq_true, if_false]
        rcases hpOk : env.persistOk with _ | _
        · left
          simp only [hpOk, Bool.not_false, if_true]
          unfold persisted_watermark
          rw [(ensure_valid_session_frame a env.sess1).1]
        · right
          simp only [hpOk, Bool.not_true, Bool.false_eq_true, if_false]
          obtain ⟨m, hmx, hvalid, hltb⟩ := newest_time_spec hne
          obtain ⟨o, ho, hpo⟩ := newest_time_from_fetch hmx
          have hoy : offer_year_ok o = true := by
            apply hyo
            rw [hf, Option.getD_some]
            exact ho
          have hy4 : 1000 ≤ m.year := offer_year_ok_spec hoy hpo
          refine ⟨m, ?_, hltb⟩
          rw [account_watermark_eq_of_persisted (persisted_watermark_contact _ env _)]
          rw [hmx]
          simp only [Option.getD_some]
          exact account_watermark_set (ensure_valid_session a env.sess1).2.1 m
            (sort_desc (new_offers offers w)) (some env.nowIso) hvalid hy4

/-- An account whose parsable watermark has a year below 1000. -/
def yearfive_account : Account :=
  ⟨"acc5", "e@example.com", "pw", ⟨true, 0⟩, some sdemo,
    some ⟨some "01.01.0005, 00:00:00", []⟩, none, none⟩

/-- An offer one day past the year-5 watermark. -/
def offer_y1 : Offer := ⟨some "201", some "Y1", none, none, some "02.01.0005, 00:00:00"⟩

/-- An offer one day *before* the year-5 watermark. -/
def offer_y2 : Offer := ⟨some "202", some "Y2", none, none, some "01.01.0004, 00:00:00"⟩

/-- First counterexample cycle: fetches the newer year-5 offer. -/
def env_y1 : RunEnv :=
  ⟨fresh_sess_env, some [offer_y1], "N1", true, fresh_sess_env, fun _ => false, true⟩

/-- Second counterexample cycle: fetches only the year-4 offer. -/
def env_y2 : RunEnv :=
  ⟨fresh_sess_env, some [offer_y2], "N2", true, fresh_sess_env, fun _ => false, true⟩

/-- An account that has never completed a cycle (no `listing_data`). -/
def first_run_account : Account :=
  ⟨"acc3", "c@example.com", "pw", ⟨true, 0⟩, some sdemo, none, some "hi", none⟩

/-- An account whose stored watermark string does not parse. -/
def bad_wm_account : Account :=
  ⟨"acc4", "d@example.com", "pw", ⟨true, 0⟩, some sdemo,
    some ⟨some "not a date", []⟩, some "hi", none⟩

/-- A cycle environment whose fetch contains no offer newer than `demo_w`. -/
def stale_env : RunEnv :=
  ⟨fresh_sess_env, some [offer_at, offer_before], "2025-10-20T10:30:00", true,
    fresh_sess_env, fun _ => true, true⟩

/-- Witness for C6: a fetch with no offer past the watermark. -/
theorem C6_witness :
    (ensure_valid_session demo_account stale_env.sess1).1 = true ∧
    stale_env.fetch = some [offer_at, offer_before] ∧
    account_watermark demo_account = some demo_w ∧
    (∀ o ∈ [offer_at, offer_before], offer_is_new demo_w o = false) ∧
    ((run_scraper_for_account demo_account stale_env).1 = true ∧
      (run_scraper_for_account demo_account stale_env).2.1 = 0 ∧
      (run_scraper_for_account demo_account stale_env).2.2.listing_data
        = demo_account.listing_data ∧
      (run_scraper_for_account demo_account stale_env).2.2.last_updated_at
        = some stale_env.nowIso) :=
  ⟨rfl, rfl, by decide, by decide,
    C6_no_newer_is_frame demo_account stale_env [offer_at, offer_before] demo_w rfl rfl
      (by decide) (by decide)⟩

/-- Witness for C10 on the spec §8 scenario (all sends succeed here; the
theorem quantifies over every contact outcome). -/
theorem C10_witness :
    (ensure_valid_session demo_account demo_env.sess1).1 = true ∧
    demo_env.fetch = some demo_offers ∧
    account_watermark demo_account = some demo_w ∧
    demo_env.persistOk = true ∧
    ((run_scraper_for_account demo_account demo_env).1 = true ∧
      (run_scraper_for_account demo_account demo_env).2.1
        = (new_offers demo_offers demo_w).length) :=
  ⟨rfl, rfl, by decide, rfl,
    C10_result_independent_of_contact demo_account demo_env demo_offers demo_w rfl rfl
      (by decide) rfl⟩
